import Mathlib

/-!
Verification development for the Wi3hard PCS backend (`src/app.py`), a
single-endpoint Flask service.  The Python source is shallowly embedded:
JSON values become an inductive type, Python truthiness and the relevant
builtins (`str.upper`, `str.split`, `base64.b64decode`, `json.dumps`,
`str()`) become executable Lean functions, the two provider calls become
functions over explicit provider environments, and the `/analyze` handler
becomes a total function returning either an HTTP response or an unhandled
Python exception, together with the set of temporary files that still
exist when the handler returns and a trace of the provider invocation.
-/

set_option linter.unusedVariables false

namespace PCSBackend

/-- JSON values as produced by parsing a request body or a provider
response body (`request.get_json` / `resp.json()`).  Numbers are modelled
as integers; no claim involves fractional JSON numbers. -/
inductive JsonV where
  | null
  | bool (b : Bool)
  | num (n : Int)
  | str (s : String)
  | arr (xs : List JsonV)
  | obj (fields : List (String × JsonV))
deriving Repr

mutual

/-- Decidable equality on `JsonV` (the automatic derivation does not
handle the nesting through `List`). -/
def decEqJsonV : (a b : JsonV) → Decidable (a = b)
  | .null, .null => isTrue rfl
  | .null, .bool _ => isFalse (fun h => JsonV.noConfusion h)
  | .null, .num _ => isFalse (fun h => JsonV.noConfusion h)
  | .null, .str _ => isFalse (fun h => JsonV.noConfusion h)
  | .null, .arr _ => isFalse (fun h => JsonV.noConfusion h)
  | .null, .obj _ => isFalse (fun h => JsonV.noConfusion h)
  | .bool _, .null => isFalse (fun h => JsonV.noConfusion h)
  | .bool x, .bool y =>
    match decEq x y with
    | isTrue h => isTrue (by rw [h])
    | isFalse h => isFalse (fun hh => h (by cases hh; rfl))
  | .bool _, .num _ => isFalse (fun h => JsonV.noConfusion h)
  | .bool _, .str _ => isFalse (fun h => JsonV.noConfusion h)
  | .bool _, .arr _ => isFalse (fun h => JsonV.noConfusion h)
  | .bool _, .obj _ => isFalse (fun h => JsonV.noConfusion h)
  | .num _, .null => isFalse (fun h => JsonV.noConfusion h)
  | .num _, .bool _ => isFalse (fun h => JsonV.noConfusion h)
  | .num x, .num y =>
    match decEq x y with
    | isTrue h => isTrue (by rw [h])
    | isFalse h => isFalse (fun hh => h (by cases hh; rfl))
  | .num _, .str _ => isFalse (fun h => JsonV.noConfusion h)
  | .num _, .arr _ => isFalse (fun h => JsonV.noConfusion h)
  | .num _, .obj _ => isFalse (fun h => JsonV.noConfusion h)
  | .str _, .null => isFalse (fun h => JsonV.noConfusion h)
  | .str _, .bool _ => isFalse (fun h => JsonV.noConfusion h)
  | .str _, .num _ => isFalse (fun h => JsonV.noConfusion h)
  | .str x, .str y =>
    match decEq x y with
    | isTrue h => isTrue (by rw [h])
    | isFalse h => isFalse (fun hh => h (by cases hh; rfl))
  | .str _, .arr _ => isFalse (fun h => JsonV.noConfusion h)
  | .str _, .obj _ => isFalse (fun h => JsonV.noConfusion h)
  | .arr _, .null => isFalse (fun h => JsonV.noConfusion h)
  | .arr _, .bool _ => isFalse (fun h => JsonV.noConfusion h)
  | .arr _, .num _ => isFalse (fun h => JsonV.noConfusion h)
  | .arr _, .str _ => isFalse (fun h => JsonV.noConfusion h)
  | .arr xs, .arr ys =>
    match decEqJsonVList xs ys with
    | isTrue h => isTrue (by rw [h])
    | isFalse h => isFalse (fun hh => h (by cases hh; rfl))
  | .arr _, .obj _ => isFalse (fun h => JsonV.noConfusion h)
  | .obj _, .null => isFalse (fun h => JsonV.noConfusion h)
  | .obj _, .bool _ => isFalse (fun h => JsonV.noConfusion h)
  | .obj _, .num _ => isFalse (fun h => JsonV.noConfusion h)
  | .obj _, .str _ => isFalse (fun h => JsonV.noConfusion h)
  | .obj _, .arr _ => isFalse (fun h => JsonV.noConfusion h)
  | .obj xs, .obj ys =>
    match decEqJsonVFields xs ys with
    | isTrue h => isTrue (by rw [h])
    | isFalse h => isFalse (fun hh => h (by cases hh; rfl))

/-- Decidable equality on lists of `JsonV` (mutual helper). -/
def decEqJsonVList : (a b : List JsonV) → Decidable (a = b)
  | [], [] => isTrue rfl
  | [], _ :: _ => isFalse (fun h => List.noConfusion h)
  | _ :: _, [] => isFalse (fun h => List.noConfusion h)
  | x :: xs, y :: ys =>
    match decEqJsonV x y with
    | isFalse h1 => isFalse (fun hh => h1 (by cases hh; rfl))
    | isTrue h1 =>
      match decEqJsonVList xs ys with
      | isTrue h2 => isTrue (by rw [h1, h2])
      | isFalse h2 => isFalse (fun hh => h2 (by cases hh; rfl))

/-- Decidable equality on JSON object bindings (mutual helper). -/
def decEqJsonVFields : (a b : List (String × JsonV)) → Decidable (a = b)
  | [], [] => isTrue rfl
  | [], _ :: _ => isFalse (fun h => List.noConfusion h)
  | _ :: _, [] => isFalse (fun h => List.noConfusion h)
  | (k1, v1) :: xs, (k2, v2) :: ys =>
    match decEq k1 k2 with
    | isFalse h1 => isFalse (fun hh => h1 (by cases hh; rfl))
    | isTrue h1 =>
      match decEqJsonV v1 v2 with
      | isFalse h2 => isFalse (fun hh => h2 (by cases hh; rfl))
      | isTrue h2 =>
        match decEqJsonVFields xs ys with
        | isTrue h3 => isTrue (by rw [h1, h2, h3])
        | isFalse h3 => isFalse (fun hh => h3 (by cases hh; rfl))

end

instance : DecidableEq JsonV := decEqJsonV

/-- Python truthiness of a parsed JSON value (`if not data:`, `if image_b64:`):
`None`, `False`, `0`, `""`, `[]` and `{}` are falsy, everything else truthy. -/
def JsonV.truthy : JsonV → Bool
  | .null => false
  | .bool b => b
  | .num n => n != 0
  | .str s => s != ""
  | .arr xs => !xs.isEmpty
  | .obj fs => !fs.isEmpty

/-- Python `dict.get(k)` on a parsed JSON object (first binding wins; the
JSON parser never produces duplicate keys). -/
def dictGet (fields : List (String × JsonV)) (k : String) : Option JsonV :=
  fields.lookup k

/-- Key lookup inside a JSON object value; `none` on a non-object.  Used to
inspect response envelopes in theorem statements. -/
def jget (j : JsonV) (k : String) : Option JsonV :=
  match j with
  | .obj fs => fs.lookup k
  | _ => none

/-- Python `str.upper` restricted to ASCII text (`Char.toUpper` maps
`a`-`z` to `A`-`Z` and leaves everything else unchanged, which agrees with
CPython on ASCII input). -/
def pyUpper (s : String) : String := ⟨s.data.map Char.toUpper⟩

mutual

/-- Python `repr()` of a parsed JSON value.  Scalars are rendered exactly
as CPython does; for strings inside containers the escaping of quotes and
non-printable characters is omitted (no theorem below depends on the
rendering of a container). -/
def pyRepr : JsonV → String
  | .null => "None"
  | .bool true => "True"
  | .bool false => "False"
  | .num n => toString n
  | .str s => "\x27" ++ s ++ "\x27"
  | .arr xs => "[" ++ String.intercalate ", " (pyReprList xs) ++ "]"
  | .obj fs => "\x7b" ++ String.intercalate ", " (pyReprFields fs) ++ "\x7d"

/-- `pyRepr` mapped over a list (mutual helper). -/
def pyReprList : List JsonV → List String
  | [] => []
  | x :: xs => pyRepr x :: pyReprList xs

/-- `pyRepr` mapped over the bindings of a dict (mutual helper). -/
def pyReprFields : List (String × JsonV) → List String
  | [] => []
  | (k, v) :: fs => ("\x27" ++ k ++ "\x27: " ++ pyRepr v) :: pyReprFields fs

end

/-- Python `str()` of a parsed JSON value (used by the f-string
`f"[MODE: ...]\n\n{text}"`): identity on strings, `repr` otherwise. -/
def pyStr : JsonV → String
  | .str s => s
  | v => pyRepr v

mutual

/-- Python `json.dumps` with its default separators (`", "` and `": "`).
String escaping is omitted; no theorem below depends on the rendering of a
string containing characters that `json.dumps` would escape. -/
def pyJsonDumps : JsonV → String
  | .null => "null"
  | .bool true => "true"
  | .bool false => "false"
  | .num n => toString n
  | .str s => "\"" ++ s ++ "\""
  | .arr xs => "[" ++ String.intercalate ", " (pyJsonDumpsList xs) ++ "]"
  | .obj fs => "\x7b" ++ String.intercalate ", " (pyJsonDumpsFields fs) ++ "\x7d"

/-- `pyJsonDumps` mapped over a list (mutual helper). -/
def pyJsonDumpsList : List JsonV → List String
  | [] => []
  | x :: xs => pyJsonDumps x :: pyJsonDumpsList xs

/-- `pyJsonDumps` mapped over the bindings of a dict (mutual helper). -/
def pyJsonDumpsFields : List (String × JsonV) → List String
  | [] => []
  | (k, v) :: fs => ("\"" ++ k ++ "\": " ++ pyJsonDumps v) :: pyJsonDumpsFields fs

end

/-! ### Base64 decoding (CPython `base64.b64decode`, `validate=False`) -/

/-- Value of a base64 alphabet character, `none` for everything else
(including the pad character `=`). -/
def b64val (c : Char) : Option Nat :=
  if 'A' ≤ c ∧ c ≤ 'Z' then some (c.toNat - 65)
  else if 'a' ≤ c ∧ c ≤ 'z' then some (c.toNat - 97 + 26)
  else if '0' ≤ c ∧ c ≤ '9' then some (c.toNat - 48 + 52)
  else if c = '+' then some 62
  else if c = '/' then some 63
  else none

/-- Decoder state of CPython's `binascii.a2b_base64` (non-strict mode):
position inside the current 4-character quad, the pending bits, the count
of pad characters seen at the current quad position, the bytes emitted so
far, and whether the `goto done` early exit was taken. -/
structure B64State where
  quadPos : Nat
  leftchar : Nat
  pads : Nat
  out : List Nat
  finished : Bool
deriving DecidableEq, Repr

/-- One character step of `binascii.a2b_base64` in non-strict mode:
after the early exit every character is ignored; a pad character at quad
position ≥ 2 counts toward termination and is otherwise skipped; a
non-alphabet character is discarded; an alphabet character advances the
quad and emits a byte at positions 1, 2 and 3. -/
def b64step (st : B64State) (c : Char) : B64State :=
  if st.finished then st
  else if c = '=' then
    if 2 ≤ st.quadPos then
      if 4 ≤ st.quadPos + (st.pads + 1) then
        { st with pads := st.pads + 1, finished := true }
      else { st with pads := st.pads + 1 }
    else st
  else
    match b64val c with
    | none => st
    | some v =>
      match st.quadPos with
      | 0 => { st with quadPos := 1, leftchar := v, pads := 0 }
      | 1 => { st with quadPos := 2, leftchar := v % 16, pads := 0, out := st.out ++ [st.leftchar * 4 + v / 16] }
      | 2 => { st with quadPos := 3, leftchar := v % 4, pads := 0, out := st.out ++ [st.leftchar * 16 + v / 4] }
      | _ => { st with quadPos := 0, leftchar := 0, pads := 0, out := st.out ++ [st.leftchar * 64 + v] }

/-- CPython `base64.b64decode(s)` on a `str` argument with the default
`validate=False`: the string must encode to ASCII, non-alphabet characters
are discarded, enough padding at quad position ≥ 2 ends decoding early,
and a trailing incomplete quad is an error (`binascii.Error`). -/
def b64decode (s : String) : Except String (List Nat) :=
  if s.data.any (fun c => 128 ≤ c.toNat) then
    .error "ascii codec cannot encode character"
  else
    let fin := s.data.foldl b64step ⟨0, 0, 0, [], false⟩
    if fin.finished then .ok fin.out
    else if fin.quadPos = 0 then .ok fin.out
    else if fin.quadPos = 1 then
      .error "Invalid base64-encoded string: number of data characters cannot be 1 more than a multiple of 4"
    else .error "Incorrect padding"

/-! ### Python substring search and `str.split` -/

/-- First occurrence of `sep` inside `l`: `some (before, after)` where
`before` is the text preceding the occurrence and `after` the text
following it; `none` when `sep` does not occur.  (`sep` is always the
non-empty marker `"base64,"` below.) -/
def findSep (sep : List Char) : List Char → Option (List Char × List Char)
  | [] => none
  | c :: cs =>
    if sep.isPrefixOf (c :: cs) then some ([], (c :: cs).drop sep.length)
    else
      match findSep sep cs with
      | some (b, a) => some (c :: b, a)
      | none => none

/-- Python's `in` test for a non-empty substring. -/
def containsSep (sep l : List Char) : Bool := (findSep sep l).isSome

/-- Fuel-driven worker for Python `str.split(sep)`: each recursive call
strictly shrinks the remaining text (the separator is non-empty), so any
fuel of at least the text's length computes the full split. -/
def pySplitFuel (sep : List Char) : Nat → List Char → List (List Char)
  | 0, l => [l]
  | fuel + 1, l =>
    match findSep sep l with
    | none => [l]
    | some (b, a) => b :: pySplitFuel sep fuel a

/-- Python `str.split(sep)` for a non-empty separator: the list of
segments between consecutive (non-overlapping, leftmost-first)
occurrences of `sep`. -/
def pySplit (sep : List Char) (l : List Char) : List (List Char) :=
  pySplitFuel sep l.length l

/-- The data-URL marker (`header_sep` in the source). -/
def header_sep : String := "base64,"

/-- Lines 27-29 of `app.py`: if the marker `"base64,"` occurs in the
string, replace the string by element 1 of its Python split on the
marker, i.e. the segment strictly between the first occurrence and the
following occurrence (or the end of the string).  The `getD` default is
never taken: when the marker occurs the split has at least two elements. -/
def stripMarker (s : String) : String :=
  if containsSep header_sep.data s.data then
    ⟨(pySplit header_sep.data s.data).getD 1 []⟩
  else s

/-- Lines 26-35 of `app.py` (`save_base64_image_to_tempfile`): strip the
data-URL marker, base64-decode, and write the bytes to a fresh named
temporary file.  The decode error propagates as the exception message; on
success the result is the temp file's name together with the bytes that
were written (the caller models the filesystem effect). -/
def save_base64_image_to_tempfile (image_b64 : String) (tmpName : String) :
    Except String (String × List Nat) :=
  match b64decode (stripMarker image_b64) with
  | .error e => .error e
  | .ok binary => .ok (tmpName, binary)

/-! ### Configuration, provider environments and the handler state -/

/-- Process configuration read from the environment at startup (lines
13-23 of `app.py`).  The two API keys are `os.getenv` results without a
default (`none` = unset, `some ""` = set to the empty string, both falsy);
`BACKEND_SECRET` and the other strings already carry their `os.getenv`
defaults. -/
structure Config where
  OPENAI_API_KEY : Option String
  GEMINI_API_KEY : Option String
  BACKEND_SECRET : String
  DEFAULT_MODEL : String
  SYSTEM_PROMPT : String

/-- Python truthiness of an `os.getenv` result (`if GEMINI_API_KEY:`). -/
def truthyOpt : Option String → Bool
  | none => false
  | some s => s != ""

/-- A content item handed to the Gemini `generate_content` call: either
the reference returned by the file-upload primitive or a plain text
item. -/
inductive Content where
  | file (ref : String)
  | text (t : String)
deriving DecidableEq, Repr

/-- The observable part of a Gemini SDK response: `response.text`
(`none` = accessing the attribute raises) and `str(response)` (`none` =
raises as well). -/
structure GemResp where
  textAttr : Option String
  strRepr : Option String
deriving DecidableEq, Repr

/-- Behaviour of the Gemini SDK for one request: whether the
`google-genai` import succeeds, the outcome of `client.files.upload` for
a given path, whether `types.GenerateContentConfig` can be constructed,
and the outcome of `client.models.generate_content` given the model name,
the content list and whether a config object was passed.  `Except.error`
models a raised exception carrying `str(e)`. -/
structure GeminiEnv where
  sdkAvailable : Bool
  upload : String → Except String String
  configOk : Bool
  generate : String → List Content → Bool → Except String GemResp

/-- The observable part of a `requests` response: the HTTP status code
and the result of `resp.json()` (`none` = the body is not valid JSON and
`.json()` raises). -/
structure HttpResp where
  status_code : Nat
  jsonBody : Option JsonV
deriving DecidableEq, Repr

/-- The JSON payload `call_openai_chat` posts to the chat-completions
endpoint: the model identifier, the two chat messages (`system` fixed
persona, `user` the normalized text), the temperature (0.2, stored in
tenths) and the output token cap. -/
structure OpenAIRequest where
  model : String
  system_content : String
  user_content : JsonV
  temperature_tenths : Nat
  max_tokens : Nat
deriving DecidableEq, Repr

/-- Behaviour of the upstream chat-completions endpoint for one request:
`Except.error` models `requests.post` itself raising (timeout,
connection error); otherwise the HTTP response received. -/
structure OpenAIEnv where
  post : OpenAIRequest → Except String HttpResp

/-- Per-request ambient state: the names `tempfile.NamedTemporaryFile`
yields in the normalizer (`tmpA`) and inside `call_gemini_api` (`tmpB`),
the `uuid.uuid4()` value, and the two provider environments. -/
structure World where
  tmpA : String
  tmpB : String
  freshUuid : String
  gemini : GeminiEnv
  openai : OpenAIEnv

/-- Result dict of a provider call as consumed by the response mapper:
`reply_text` (any JSON value on the OpenAI path) and `reply_type` (the
`raw` entry is never read by the handler and is dropped). -/
structure ProviderResult where
  reply_text : JsonV
  reply_type : String
deriving DecidableEq, Repr

/-! ### Provider calls -/

/-- Line 58 of `app.py`, `if payload_text and payload_text.strip():` on
an arbitrary Python value: a falsy value short-circuits to `False`; a
truthy non-string raises `AttributeError` at `.strip()`; a string yields
`some s` exactly when it is non-empty and has non-whitespace content. -/
def pyTextGuard : JsonV → Except String (Option String)
  | .str s => .ok (if s ≠ "" ∧ s.trim ≠ "" then some s else none)
  | v => if v.truthy then .error "AttributeError: object has no attribute strip" else .ok none

/-- Lines 38-77 of `app.py` (`call_gemini_api`): check the key and the
SDK, write the image bytes (if truthy) to a second temporary file and
upload it — the `try/finally: pass` around the upload removes nothing —
append the payload text when non-blank, build the optional config, call
`generate_content`, and extract the reply text with the
`response.text` / `str(response)` / fixed-placeholder fallback chain.
Returns the outcome together with the filesystem (a list of existing
file names) after the call. -/
def call_gemini_api (cfg : Config) (env : GeminiEnv) (tmpB : String)
    (payload_text : JsonV) (image_bytes : Option (List Nat)) (fs : List String) :
    Except String ProviderResult × List String :=
  if !truthyOpt cfg.GEMINI_API_KEY then
    (.error "GEMINI_API_KEY not set on server.", fs)
  else if !env.sdkAvailable then
    (.error "google-genai SDK not installed. pip install google-genai", fs)
  else
    let imgTruthy : Bool := match image_bytes with
      | some bs => !bs.isEmpty
      | none => false
    let uploadStep : Except String (List Content) × List String :=
      if imgTruthy then
        match env.upload tmpB with
        | .error e => (.error e, tmpB :: fs)
        | .ok ref => (.ok [Content.file ref], tmpB :: fs)
      else (.ok [], fs)
    match uploadStep with
    | (.error e, fs1) => (.error e, fs1)
    | (.ok contents0, fs1) =>
      match pyTextGuard payload_text with
      | .error e => (.error e, fs1)
      | .ok keep =>
        let contents := contents0 ++ (match keep with
          | some s => [Content.text s]
          | none => [])
        let model_name := if cfg.DEFAULT_MODEL ≠ "" then cfg.DEFAULT_MODEL else "gemini-2.5-pro"
        match env.generate model_name contents env.configOk with
        | .error e => (.error e, fs1)
        | .ok resp =>
          let text := match resp.textAttr with
            | some t => t
            | none =>
              match resp.strRepr with
              | some s => s
              | none => "No textual response from Gemini."
          (.ok ⟨.str text, "analysis"⟩, fs1)

/-- Lines 100-104 of `app.py`: the attempt
`j[\"choices\"][0][\"message\"][\"content\"]`.  `some` exactly when the
parsed body is an object whose `choices` entry is a non-empty array whose
first element is an object with an object `message` entry carrying a
`content` key; every other shape raises inside the `try` (KeyError,
IndexError or TypeError) and yields `none` here. -/
def extractContent (j : JsonV) : Option JsonV :=
  match jget j "choices" with
  | some (.arr (x :: _)) =>
    (match jget x "message" with
     | some m => jget m "content"
     | none => none)
  | _ => none

/-- Lines 80-105 of `app.py` (`call_openai_chat`): check the key, post
the two-message chat payload, `raise_for_status` (an exception exactly
for status codes in [400, 600)), parse the JSON body, and extract
`choices[0][\"message\"][\"content\"]`, falling back to `json.dumps` of
the whole body if any step of the extraction raises. -/
def call_openai_chat (cfg : Config) (env : OpenAIEnv)
    (system_prompt : String) (user_text : JsonV) : Except String ProviderResult :=
  if !truthyOpt cfg.OPENAI_API_KEY then
    .error "OPENAI_API_KEY not set on server."
  else
    let body : OpenAIRequest :=
      { model := "gpt-4o", system_content := system_prompt, user_content := user_text,
        temperature_tenths := 2, max_tokens := 800 }
    match env.post body with
    | .error e => .error e
    | .ok resp =>
      if 400 ≤ resp.status_code ∧ resp.status_code < 600 then
        .error ("HTTP error " ++ toString resp.status_code ++ " for url https://api.openai.com/v1/chat/completions")
      else
        match resp.jsonBody with
        | none => .error "Expecting value: line 1 column 1 (char 0)"
        | some j =>
          let text := match extractContent j with
            | some v => v
            | none => .str (pyJsonDumps j)
          .ok ⟨text, "analysis"⟩

/-! ### The `/analyze` handler -/

/-- An HTTP response produced by the handler: status code and the
`jsonify`-serialized body. -/
structure HttpResponse where
  status : Nat
  body : JsonV
deriving DecidableEq, Repr

/-- An exception that escapes the handler (Flask would surface it as a
generic 500 HTML error page, not a JSON envelope). -/
inductive Unhandled where
  | attributeError (msg : String)
deriving DecidableEq, Repr

/-- Decidable equality for `Except` results (not provided by core). -/
def decEqExcept {ε α : Type} [DecidableEq ε] [DecidableEq α] :
    (a b : Except ε α) → Decidable (a = b)
  | .ok x, .ok y =>
    match decEq x y with
    | isTrue h => isTrue (by rw [h])
    | isFalse h => isFalse (fun hh => h (by cases hh; rfl))
  | .ok _, .error _ => isFalse (fun h => Except.noConfusion h)
  | .error _, .ok _ => isFalse (fun h => Except.noConfusion h)
  | .error x, .error y =>
    match decEq x y with
    | isTrue h => isTrue (by rw [h])
    | isFalse h => isFalse (fun hh => h (by cases hh; rfl))

instance {ε α : Type} [DecidableEq ε] [DecidableEq α] : DecidableEq (Except ε α) :=
  decEqExcept

/-- Everything observable about one handler invocation: the response (or
the unhandled exception), the temporary files still existing when the
handler returns (the filesystem starts empty), and which provider was
invoked with which `user_text` (if the dispatcher was reached and chose
one). -/
structure AnalyzeOut where
  result : Except Unhandled HttpResponse
  fsFinal : List String
  calledWith : Option (String × JsonV)
deriving DecidableEq, Repr

/-- Error envelope `{"status": "error", "message": msg}`. -/
def errEnv (msg : String) : JsonV :=
  .obj [("status", .str "error"), ("message", .str msg)]

/-- Error envelope with the `error` detail field. -/
def errEnvE (msg err : String) : JsonV :=
  .obj [("status", .str "error"), ("message", .str msg), ("error", .str err)]

/-- Success envelope of lines 150-155: `status`, `reply_text`,
`reply_type` and `meta.used_provider`.  (`ai_resp.get("reply_type",
"analysis")` reads the `reply_type` entry both provider dicts always
carry.) -/
def okEnv (pr : ProviderResult) (used : String) : JsonV :=
  .obj [("status", .str "ok"), ("reply_text", pr.reply_text),
        ("reply_type", .str pr.reply_type),
        ("meta", .obj [("used_provider", .str used)])]

/-- A request as the handler sees it: the `x-backend-secret` header (if
sent) and the parsed JSON body (`none` when the body is missing or not
valid JSON, in which case `request.get_json(force=True)` raises
`BadRequest`). -/
structure Request where
  secretHeader : Option String
  body : Option JsonV

/-- Lines 120-123 of `app.py`: if `mode != "auto"` (true for every
non-string mode value), build the bracketed-prefix f-string — raising
`AttributeError` at `mode.upper()` when `mode` is not a string —
otherwise pass `message_text` through unchanged. -/
def userTextOf (mode text : JsonV) : Except Unhandled JsonV :=
  if mode ≠ JsonV.str "auto" then
    match mode with
    | .str m => .ok (.str ("[MODE: " ++ pyUpper m ++ "]\n\n" ++ pyStr text))
    | _ => .error (.attributeError "object has no attribute upper")
  else .ok text

/-- The message of the `TypeError` CPython raises when a truthy
non-string reaches `base64.b64decode` via `"base64," in image_b64`. -/
def typeErrMsg : String :=
  "TypeError: argument should be a bytes-like object or ASCII string"

/-- Lines 124-132 of `app.py`: when `image_base64` is present and truthy,
decode it to a temporary file and read the bytes back, converting any
exception (a non-string value, a base64 error) into the 400
`bad image base64` envelope.  On success returns the tracked temp path,
the bytes, and the filesystem contribution. -/
def imageStage (image_b64 : Option JsonV) (tmpA : String) :
    Except HttpResponse (Option String × Option (List Nat) × List String) :=
  match image_b64 with
  | none => .ok (none, none, [])
  | some v =>
    if v.truthy then
      match v with
      | .str s =>
        match save_base64_image_to_tempfile s tmpA with
        | .ok (path, binary) => .ok (some path, some binary, [path])
        | .error e => .error ⟨400, errEnvE "bad image base64" e⟩
      | _ => .error ⟨400, errEnvE "bad image base64" typeErrMsg⟩
    else .ok (none, none, [])

/-- Lines 144-149 of `app.py` (the `finally` block): delete the tracked
normalizer temp file if one was created; a failing `os.remove` is
swallowed. -/
def cleanupTemp (temp_image_path : Option String) (fs : List String) : List String :=
  match temp_image_path with
  | some p => fs.erase p
  | none => fs

/-- The message of line 141 of `app.py`. -/
def noProviderMsg : String :=
  "No AI provider configured. Set GEMINI_API_KEY or OPENAI_API_KEY on the server."

/-- Lines 133-155 of `app.py`: the provider dispatcher (`try` body), the
`except` clause turning a provider exception into the 500
`AI provider error` envelope, the `finally` cleanup, and the success
envelope. -/
def dispatch (cfg : Config) (w : World) (user_text : JsonV)
    (temp_image_path : Option String) (image_bytes : Option (List Nat))
    (fs : List String) : AnalyzeOut :=
  if truthyOpt cfg.GEMINI_API_KEY then
    match call_gemini_api cfg w.gemini w.tmpB user_text image_bytes fs with
    | (r, fs1) =>
      let fs2 := cleanupTemp temp_image_path fs1
      match r with
      | .ok pr => ⟨.ok ⟨200, okEnv pr "gemini"⟩, fs2, some ("gemini", user_text)⟩
      | .error e => ⟨.ok ⟨500, errEnvE "AI provider error" e⟩, fs2, some ("gemini", user_text)⟩
  else if truthyOpt cfg.OPENAI_API_KEY then
    let fs2 := cleanupTemp temp_image_path fs
    match call_openai_chat cfg w.openai cfg.SYSTEM_PROMPT user_text with
    | .ok pr => ⟨.ok ⟨200, okEnv pr "openai"⟩, fs2, some ("openai", user_text)⟩
    | .error e => ⟨.ok ⟨500, errEnvE "AI provider error" e⟩, fs2, some ("openai", user_text)⟩
  else
    ⟨.ok ⟨500, errEnv noProviderMsg⟩, cleanupTemp temp_image_path fs, none⟩

/-- Lines 116-155 of `app.py`, after the body has been checked truthy and
is a dict: field extraction (with the unused `user_id` defaulting to a
fresh uuid), mode prefixing, image normalization, dispatch. -/
def analyzeObj (cfg : Config) (w : World) (fields : List (String × JsonV)) : AnalyzeOut :=
  let user_id := (dictGet fields "user_id").getD (.str w.freshUuid)
  let mode := (dictGet fields "mode").getD (.str "auto")
  let text := (dictGet fields "message_text").getD (.str "")
  let image_b64 := dictGet fields "image_base64"
  match userTextOf mode text with
  | .error e => ⟨.error e, [], none⟩
  | .ok user_text =>
    match imageStage image_b64 w.tmpA with
    | .error resp => ⟨.ok resp, [], none⟩
    | .ok (temp_image_path, image_bytes, fs0) =>
      dispatch cfg w user_text temp_image_path image_bytes fs0

/-- Lines 108-155 of `app.py`: the whole `/analyze` handler — the
shared-secret gate, JSON parsing (`none` body = `get_json(force=True)`
raised `BadRequest`, surfaced by Flask as a plain 400 whose body is not
the JSON error envelope, modelled as `null`), the Python-falsy body
check, and — via `analyzeObj` — the rest; a truthy non-dict body raises
`AttributeError` at `data.get`. -/
def analyze (cfg : Config) (w : World) (req : Request) : AnalyzeOut :=
  if cfg.BACKEND_SECRET ≠ "devsecret" ∧ req.secretHeader ≠ some cfg.BACKEND_SECRET then
    ⟨.ok ⟨401, errEnv "unauthorized"⟩, [], none⟩
  else
    match req.body with
    | none => ⟨.ok ⟨400, .null⟩, [], none⟩
    | some data =>
      if !data.truthy then ⟨.ok ⟨400, errEnv "invalid json payload"⟩, [], none⟩
      else
        match data with
        | .obj fields => analyzeObj cfg w fields
        | _ => ⟨.error (.attributeError "object has no attribute get"), [], none⟩

/-! ### Spec-side definitions (for refinement comparisons) -/

/-- Stated from the spec's words for the C3 comparison: the substring of
`image_base64` after the first occurrence of the literal marker
`"base64,"` (everything up to and including the marker stripped), the
whole string when the marker does not occur. -/
def specAfterFirstMarker (s : String) : String :=
  match findSep header_sep.data s.data with
  | some (_, a) => ⟨a⟩
  | none => s

/-- The string the code actually decodes, stated independently of
`str.split`: the segment strictly between the first occurrence of the
marker and the following occurrence (or the end of the string). -/
def specBetweenMarkers (s : String) : String :=
  match findSep header_sep.data s.data with
  | some (_, a) =>
    (match findSep header_sep.data a with
     | some (b, _) => (⟨b⟩ : String)
     | none => (⟨a⟩ : String))
  | none => s

/-- Stated from the spec's words for the C7 comparison: `message_text`
when it is a string, defaulting to the empty string. -/
def specMessageText (fields : List (String × JsonV)) : String :=
  match dictGet fields "message_text" with
  | some (.str t) => t
  | _ => ""

/-- Stated from the spec's words for the C7 comparison: the text handed
to the provider — `message_text` unchanged when `mode` is absent or
`"auto"`, otherwise prefixed with the bracketed uppercased mode marker. -/
def specUserText (fields : List (String × JsonV)) : String :=
  match dictGet fields "mode" with
  | some (.str m) =>
    if m = "auto" then specMessageText fields
    else "[MODE: " ++ pyUpper m ++ "]\n\n" ++ specMessageText fields
  | _ => specMessageText fields

/-! ### Concrete fixtures for counterexamples and witnesses -/

/-- A configuration with only the Gemini credential set and everything
else at its defaults. -/
def cfgGemini : Config :=
  ⟨none, some "gemini-key", "devsecret", "gemini-2.5-pro", "PERSONA"⟩

/-- A configuration with only the OpenAI credential set. -/
def cfgOpenAI : Config :=
  ⟨some "openai-key", none, "devsecret", "gemini-2.5-pro", "PERSONA"⟩

/-- A configuration with neither provider credential set. -/
def cfgNoProvider : Config :=
  ⟨none, none, "devsecret", "gemini-2.5-pro", "PERSONA"⟩

/-- A configuration whose `BACKEND_SECRET` environment variable was set
to the empty string. -/
def cfgEmptySecret : Config :=
  ⟨none, none, "", "gemini-2.5-pro", "PERSONA"⟩

/-- A Gemini environment in which the SDK import, the upload and the
generation all succeed and the response exposes a text attribute. -/
def gemEnvOk : GeminiEnv :=
  ⟨true, fun p => .ok ("files/" ++ p), true,
   fun _ _ _ => .ok ⟨some "the tutor reply", some "GenerateContentResponse"⟩⟩

/-- An OpenAI upstream returning 200 with a well-shaped chat-completions
body. -/
def openaiEnvOk : OpenAIEnv :=
  ⟨fun _ => .ok ⟨200, some (.obj [("choices",
      .arr [.obj [("message", .obj [("content", .str "the chat reply")])]])])⟩⟩

/-- The ambient per-request state used by the concrete scenarios. -/
def stdWorld : World :=
  ⟨"tmp-image-1", "tmp-image-2", "uuid-0", gemEnvOk, openaiEnvOk⟩

/-- An OpenAI upstream whose final response carries the non-2xx status
304 together with a valid JSON body. -/
def openaiEnv304 : OpenAIEnv :=
  ⟨fun _ => .ok ⟨304, some (.obj [("a", .num 1)])⟩⟩

/-- `stdWorld` with the 304-returning OpenAI upstream. -/
def world304 : World :=
  ⟨"tmp-image-1", "tmp-image-2", "uuid-0", gemEnvOk, openaiEnv304⟩

/-- An OpenAI upstream answering with a server error status. -/
def openaiEnv503 : OpenAIEnv :=
  ⟨fun _ => .ok ⟨503, some .null⟩⟩

/-- `stdWorld` with the 503-returning OpenAI upstream. -/
def world503 : World :=
  ⟨"tmp-image-1", "tmp-image-2", "uuid-0", gemEnvOk, openaiEnv503⟩

/-! ### Predicates used by the amended claims -/

/-- The `mode` field of the body is absent or a string — exactly the
bodies on which line 121 (`mode.upper()`) cannot raise. -/
def modeOk (fields : List (String × JsonV)) : Prop :=
  dictGet fields "mode" = none ∨ ∃ m, dictGet fields "mode" = some (.str m)

/-- Bodies on which the handler raises no unhandled exception: a
missing/unparsable body, a Python-falsy parsed value, or a JSON object
whose `mode` is absent or a string. -/
def bodySafe : Option JsonV → Prop
  | none => True
  | some v => v.truthy = false ∨ ∃ fields, v = .obj fields ∧ modeOk fields

/-- The `image_base64` field is present, truthy, and its normalization
raises (a truthy non-string value, or a string whose base64 decode
fails). -/
def imageB64Bad : Option JsonV → Bool
  | none => false
  | some (.str s) =>
    (JsonV.str s).truthy &&
      (match b64decode (stripMarker s) with
       | .ok _ => false
       | .error _ => true)
  | some v => v.truthy

/-! ### Lemmas about string search and split -/

theorem findSep_after_lt (sep : List Char) (hsep : sep ≠ []) :
    ∀ l b a, findSep sep l = some (b, a) → a.length < l.length := by
  intro l
  induction l with
  | nil => intro b a h; simp [findSep] at h
  | cons c cs ih =>
    intro b a h
    rw [findSep] at h
    split at h
    · rw [Option.some.injEq] at h
      cases h
      simp only [List.length_drop, List.length_cons]
      have h1 : 1 ≤ sep.length := by
        cases sep with
        | nil => exact absurd rfl hsep
        | cons _ _ => simp
      omega
    · cases heq : findSep sep cs with
      | none => rw [heq] at h; exact absurd h (by simp)
      | some p =>
        obtain ⟨b2, a2⟩ := p
        rw [heq, Option.some.injEq] at h
        cases h
        have h2 := ih _ _ heq
        simp only [List.length_cons]
        omega

theorem findSep_nonnil (sep l b a : List Char)
    (h : findSep sep l = some (b, a)) : l ≠ [] := by
  intro hl; subst hl; simp [findSep] at h

/-! ### Shape lemmas about the provider calls and the handler stages -/

theorem call_gemini_ok_shape (cfg : Config) (env : GeminiEnv) (tmpB : String)
    (pt : JsonV) (ib : Option (List Nat)) (fs fs1 : List String) (pr : ProviderResult)
    (h : call_gemini_api cfg env tmpB pt ib fs = (.ok pr, fs1)) :
    pr.reply_type = "analysis" := by
  simp only [call_gemini_api] at h
  repeat' split at h
  all_goals try simp_all
  all_goals (obtain ⟨h1, h2⟩ := h; subst h1; rfl)

theorem call_openai_ok_shape (cfg : Config) (env : OpenAIEnv) (sys : String)
    (ut : JsonV) (pr : ProviderResult)
    (h : call_openai_chat cfg env sys ut = .ok pr) :
    pr.reply_type = "analysis" := by
  simp only [call_openai_chat] at h
  repeat' split at h
  all_goals try simp_all
  all_goals (subst h; rfl)

theorem dispatch_cases (cfg : Config) (w : World) (ut : JsonV)
    (tip : Option String) (ib : Option (List Nat)) (fs : List String) :
    (∃ pr, truthyOpt cfg.GEMINI_API_KEY = true ∧ pr.reply_type = "analysis" ∧
       (dispatch cfg w ut tip ib fs).result = .ok ⟨200, okEnv pr "gemini"⟩ ∧
       (dispatch cfg w ut tip ib fs).calledWith = some ("gemini", ut)) ∨
    (∃ e, truthyOpt cfg.GEMINI_API_KEY = true ∧
       (dispatch cfg w ut tip ib fs).result = .ok ⟨500, errEnvE "AI provider error" e⟩ ∧
       (dispatch cfg w ut tip ib fs).calledWith = some ("gemini", ut)) ∨
    (∃ pr, truthyOpt cfg.GEMINI_API_KEY = false ∧ truthyOpt cfg.OPENAI_API_KEY = true ∧
       pr.reply_type = "analysis" ∧
       (dispatch cfg w ut tip ib fs).result = .ok ⟨200, okEnv pr "openai"⟩ ∧
       (dispatch cfg w ut tip ib fs).calledWith = some ("openai", ut)) ∨
    (∃ e, truthyOpt cfg.GEMINI_API_KEY = false ∧ truthyOpt cfg.OPENAI_API_KEY = true ∧
       (dispatch cfg w ut tip ib fs).result = .ok ⟨500, errEnvE "AI provider error" e⟩ ∧
       (dispatch cfg w ut tip ib fs).calledWith = some ("openai", ut)) ∨
    (truthyOpt cfg.GEMINI_API_KEY = false ∧ truthyOpt cfg.OPENAI_API_KEY = false ∧
       (dispatch cfg w ut tip ib fs).result = .ok ⟨500, errEnv noProviderMsg⟩ ∧
       (dispatch cfg w ut tip ib fs).calledWith = none) := by
  cases hg : truthyOpt cfg.GEMINI_API_KEY with
  | true =>
    rcases hcall : call_gemini_api cfg w.gemini w.tmpB ut ib fs with ⟨r, fs1⟩
    cases r with
    | ok pr =>
      left
      exact ⟨pr, rfl, call_gemini_ok_shape _ _ _ _ _ _ _ _ hcall,
        by simp [dispatch, hg, hcall], by simp [dispatch, hg, hcall]⟩
    | error e =>
      right; left
      exact ⟨e, rfl, by simp [dispatch, hg, hcall], by simp [dispatch, hg, hcall]⟩
  | false =>
    cases ho : truthyOpt cfg.OPENAI_API_KEY with
    | true =>
      cases hcall : call_openai_chat cfg w.openai cfg.SYSTEM_PROMPT ut with
      | ok pr =>
        right; right; left
        exact ⟨pr, rfl, rfl, call_openai_ok_shape _ _ _ _ _ hcall,
          by simp [dispatch, hg, ho, hcall], by simp [dispatch, hg, ho, hcall]⟩
      | error e =>
        right; right; right; left
        exact ⟨e, rfl, rfl, by simp [dispatch, hg, ho, hcall], by simp [dispatch, hg, ho, hcall]⟩
    | false =>
      right; right; right; right
      exact ⟨rfl, rfl, by simp [dispatch, hg, ho], by simp [dispatch, hg, ho]⟩

theorem imageStage_cases (ib : Option JsonV) (tmpA : String) :
    (∃ e, imageStage ib tmpA = .error ⟨400, errEnvE "bad image base64" e⟩ ∧
       imageB64Bad ib = true) ∨
    (∃ tip bytes fs0, imageStage ib tmpA = .ok (tip, bytes, fs0) ∧
       imageB64Bad ib = false) := by
  cases ib with
  | none => right; exact ⟨none, none, [], rfl, rfl⟩
  | some v =>
    cases htv : v.truthy with
    | false =>
      right
      refine ⟨none, none, [], by simp [imageStage, htv], ?_⟩
      cases v <;> simp_all [imageB64Bad]
    | true =>
      cases v with
      | str s =>
        cases hd : b64decode (stripMarker s) with
        | ok bin =>
          right
          exact ⟨some tmpA, some bin, [tmpA],
            by simp [imageStage, htv, save_base64_image_to_tempfile, hd],
            by simp [imageB64Bad, htv, hd]⟩
        | error e =>
          left
          exact ⟨e, by simp [imageStage, htv, save_base64_image_to_tempfile, hd],
            by simp [imageB64Bad, htv, hd]⟩
      | null => left; exact ⟨typeErrMsg, by simp [imageStage, htv], by simp [imageB64Bad, htv]⟩
      | bool b => left; exact ⟨typeErrMsg, by simp [imageStage, htv], by simp [imageB64Bad, htv]⟩
      | num n => left; exact ⟨typeErrMsg, by simp [imageStage, htv], by simp [imageB64Bad, htv]⟩
      | arr xs => left; exact ⟨typeErrMsg, by simp [imageStage, htv], by simp [imageB64Bad, htv]⟩
      | obj fs => left; exact ⟨typeErrMsg, by simp [imageStage, htv], by simp [imageB64Bad, htv]⟩

theorem userTextOf_str (m : String) (text : JsonV) :
    userTextOf (.str m) text =
      .ok (if m = "auto" then text
           else .str ("[MODE: " ++ pyUpper m ++ "]\n\n" ++ pyStr text)) := by
  by_cases hm : m = "auto"
  · subst hm; simp [userTextOf]
  · simp [userTextOf, hm]

theorem userTextOf_ok_of_modeOk (fields : List (String × JsonV)) (hm : modeOk fields)
    (text : JsonV) :
    ∃ u, userTextOf ((dictGet fields "mode").getD (.str "auto")) text = .ok u := by
  rcases hm with h | ⟨m, h⟩
  · rw [h, Option.getD_none]; exact ⟨_, userTextOf_str "auto" text⟩
  · rw [h, Option.getD_some]; exact ⟨_, userTextOf_str m text⟩

theorem userTextOf_spec (fields : List (String × JsonV)) (hm : modeOk fields)
    (ht : dictGet fields "message_text" = none ∨
      ∃ t, dictGet fields "message_text" = some (.str t)) :
    userTextOf ((dictGet fields "mode").getD (.str "auto"))
        ((dictGet fields "message_text").getD (.str "")) = .ok (.str (specUserText fields)) := by
  have htext : (dictGet fields "message_text").getD (.str "") = .str (specMessageText fields) := by
    rcases ht with h | ⟨t, h⟩ <;> simp [h, specMessageText]
  rcases hm with h | ⟨m, h⟩
  · rw [h, Option.getD_none, htext, userTextOf_str]
    simp [specUserText, h]
  · rw [h, Option.getD_some, htext, userTextOf_str]
    by_cases hm2 : m = "auto" <;> simp [specUserText, h, hm2, pyStr]

theorem analyzeObj_cases (cfg : Config) (w : World) (fields : List (String × JsonV))
    (hm : modeOk fields) :
    (∃ e, analyzeObj cfg w fields = ⟨.ok ⟨400, errEnvE "bad image base64" e⟩, [], none⟩ ∧
       imageB64Bad (dictGet fields "image_base64") = true) ∨
    (∃ u tip ib fs0, analyzeObj cfg w fields = dispatch cfg w u tip ib fs0 ∧
       userTextOf ((dictGet fields "mode").getD (.str "auto"))
         ((dictGet fields "message_text").getD (.str "")) = .ok u ∧
       imageB64Bad (dictGet fields "image_base64") = false) := by
  obtain ⟨u, hu⟩ := userTextOf_ok_of_modeOk fields hm
    ((dictGet fields "message_text").getD (.str ""))
  rcases imageStage_cases (dictGet fields "image_base64") w.tmpA with
    ⟨e, hi, hbad⟩ | ⟨tip, bytes, fs0, hi, hgood⟩
  · left; exact ⟨e, by simp [analyzeObj, hu, hi], hbad⟩
  · right; exact ⟨u, tip, bytes, fs0, by simp [analyzeObj, hu, hi], hu, hgood⟩

theorem analyze_cases (cfg : Config) (w : World) (req : Request) :
    (cfg.BACKEND_SECRET ≠ "devsecret" ∧ req.secretHeader ≠ some cfg.BACKEND_SECRET ∧
       analyze cfg w req = ⟨.ok ⟨401, errEnv "unauthorized"⟩, [], none⟩) ∨
    (¬(cfg.BACKEND_SECRET ≠ "devsecret" ∧ req.secretHeader ≠ some cfg.BACKEND_SECRET) ∧
      ((req.body = none ∧ analyze cfg w req = ⟨.ok ⟨400, .null⟩, [], none⟩) ∨
       (∃ v, req.body = some v ∧ v.truthy = false ∧
          analyze cfg w req = ⟨.ok ⟨400, errEnv "invalid json payload"⟩, [], none⟩) ∨
       (∃ v, req.body = some v ∧ v.truthy = true ∧ (∀ fs, v ≠ .obj fs) ∧
          analyze cfg w req =
            ⟨.error (.attributeError "object has no attribute get"), [], none⟩) ∨
       (∃ fields, req.body = some (.obj fields) ∧ (JsonV.obj fields).truthy = true ∧
          analyze cfg w req = analyzeObj cfg w fields))) := by
  by_cases hg : cfg.BACKEND_SECRET ≠ "devsecret" ∧ req.secretHeader ≠ some cfg.BACKEND_SECRET
  · left; exact ⟨hg.1, hg.2, by simp [analyze, hg]⟩
  · right; refine ⟨hg, ?_⟩
    cases hb : req.body with
    | none => left; exact ⟨rfl, by simp [analyze, hg, hb]⟩
    | some v =>
      cases htv : v.truthy with
      | false =>
        right; left
        exact ⟨v, rfl, htv, by simp [analyze, hg, hb, htv]⟩
      | true =>
        cases v with
        | obj fields =>
          right; right; right
          exact ⟨fields, rfl, htv, by simp [analyze, hg, hb, htv]⟩
        | null => simp [JsonV.truthy] at htv
        | bool b =>
          right; right; left
          exact ⟨.bool b, rfl, htv, fun fs hh => JsonV.noConfusion hh,
            by simp [analyze, hg, hb, htv]⟩
        | num n =>
          right; right; left
          exact ⟨.num n, rfl, htv, fun fs hh => JsonV.noConfusion hh,
            by simp [analyze, hg, hb, htv]⟩
        | str s =>
          right; right; left
          exact ⟨.str s, rfl, htv, fun fs hh => JsonV.noConfusion hh,
            by simp [analyze, hg, hb, htv]⟩
        | arr xs =>
          right; right; left
          exact ⟨.arr xs, rfl, htv, fun fs hh => JsonV.noConfusion hh,
            by simp [analyze, hg, hb, htv]⟩

theorem analyzeObj_not_modeOk (cfg : Config) (w : World) (fields : List (String × JsonV))
    (hm : ¬ modeOk fields) :
    analyzeObj cfg w fields =
      ⟨.error (.attributeError "object has no attribute upper"), [], none⟩ := by
  cases hmv : dictGet fields "mode" with
  | none => exact absurd (Or.inl hmv) hm
  | some v =>
    cases v with
    | str m => exact absurd (Or.inr ⟨m, hmv⟩) hm
    | null => simp [analyzeObj, hmv, userTextOf]
    | bool b => simp [analyzeObj, hmv, userTextOf]
    | num n => simp [analyzeObj, hmv, userTextOf]
    | arr xs => simp [analyzeObj, hmv, userTextOf]
    | obj fs => simp [analyzeObj, hmv, userTextOf]

theorem analyzeObj_ok_status (cfg : Config) (w : World) (fields : List (String × JsonV))
    (r : HttpResponse) (h : (analyzeObj cfg w fields).result = .ok r) :
    r.status = 200 ∨ r.status = 400 ∨ r.status = 500 := by
  by_cases hm : modeOk fields
  · rcases analyzeObj_cases cfg w fields hm with ⟨e, heq, _⟩ | ⟨u, tip, ib, fs0, heq, _, _⟩
    · rw [heq] at h; simp at h; subst h; simp
    · rw [heq] at h
      rcases dispatch_cases cfg w u tip ib fs0 with
        ⟨pr, _, _, hres, _⟩ | ⟨e, _, hres, _⟩ | ⟨pr, _, _, _, hres, _⟩ |
        ⟨e, _, _, hres, _⟩ | ⟨_, _, hres, _⟩ <;>
        (rw [hres] at h; injection h with h; subst h; simp)
  · rw [analyzeObj_not_modeOk cfg w fields hm] at h; simp at h


theorem jget_okEnv_meta (pr : ProviderResult) (used : String) :
    jget (okEnv pr used) "meta" = some (.obj [("used_provider", .str used)]) := rfl

theorem jget_okEnv_reply_type (pr : ProviderResult) (used : String) :
    jget (okEnv pr used) "reply_type" = some (.str pr.reply_type) := rfl

theorem analyze_ok_shape (cfg : Config) (w : World) (req : Request) (r : HttpResponse)
    (h : (analyze cfg w req).result = .ok r) :
    r = ⟨401, errEnv "unauthorized"⟩ ∨
    r = ⟨400, .null⟩ ∨
    r = ⟨400, errEnv "invalid json payload"⟩ ∨
    (∃ e, r = ⟨400, errEnvE "bad image base64" e⟩) ∨
    (∃ pr, truthyOpt cfg.GEMINI_API_KEY = true ∧ pr.reply_type = "analysis" ∧
       r = ⟨200, okEnv pr "gemini"⟩) ∨
    (∃ e, truthyOpt cfg.GEMINI_API_KEY = true ∧ r = ⟨500, errEnvE "AI provider error" e⟩) ∨
    (∃ pr, truthyOpt cfg.GEMINI_API_KEY = false ∧ truthyOpt cfg.OPENAI_API_KEY = true ∧
       pr.reply_type = "analysis" ∧ r = ⟨200, okEnv pr "openai"⟩) ∨
    (∃ e, truthyOpt cfg.GEMINI_API_KEY = false ∧ truthyOpt cfg.OPENAI_API_KEY = true ∧
       r = ⟨500, errEnvE "AI provider error" e⟩) ∨
    (truthyOpt cfg.GEMINI_API_KEY = false ∧ truthyOpt cfg.OPENAI_API_KEY = false ∧
       r = ⟨500, errEnv noProviderMsg⟩) := by
  rcases analyze_cases cfg w req with ⟨_, _, heq⟩ | ⟨_, hcases⟩
  · rw [heq] at h; simp at h; subst h; simp
  · rcases hcases with ⟨_, heq⟩ | ⟨v, _, _, heq⟩ | ⟨v, _, _, _, heq⟩ | ⟨fields, _, _, heq⟩
    · rw [heq] at h; simp at h; subst h; simp
    · rw [heq] at h; simp at h; subst h; simp
    · rw [heq] at h; simp at h
    · rw [heq] at h
      by_cases hm : modeOk fields
      · rcases analyzeObj_cases cfg w fields hm with ⟨e, heq2, _⟩ | ⟨u, tip, ib, fs0, heq2, _, _⟩
        · rw [heq2] at h; simp at h; subst h
          exact Or.inr (Or.inr (Or.inr (Or.inl ⟨e, rfl⟩)))
        · rw [heq2] at h
          rcases dispatch_cases cfg w u tip ib fs0 with
            ⟨pr, hg, hpt, hres, _⟩ | ⟨e, hg, hres, _⟩ | ⟨pr, hg, ho, hpt, hres, _⟩ |
            ⟨e, hg, ho, hres, _⟩ | ⟨hg, ho, hres, _⟩ <;>
            (rw [hres] at h; injection h with h; subst h)
          · exact Or.inr (Or.inr (Or.inr (Or.inr (Or.inl ⟨pr, hg, hpt, rfl⟩))))
          · exact Or.inr (Or.inr (Or.inr (Or.inr (Or.inr (Or.inl ⟨e, hg, rfl⟩)))))
          · exact Or.inr (Or.inr (Or.inr (Or.inr (Or.inr (Or.inr (Or.inl ⟨pr, hg, ho, hpt, rfl⟩))))))
          · exact Or.inr (Or.inr (Or.inr (Or.inr (Or.inr (Or.inr (Or.inr (Or.inl ⟨e, hg, ho, rfl⟩)))))))
          · exact Or.inr (Or.inr (Or.inr (Or.inr (Or.inr (Or.inr (Or.inr (Or.inr ⟨hg, ho, rfl⟩)))))))
      · rw [analyzeObj_not_modeOk cfg w fields hm] at h; simp at h

/-! ### Claim theorems: universal statements -/

/-- C10: every 200 response from the handler carries
`reply_type = "analysis"`: both provider paths declare this constant
reply type and the response mapper copies it, regardless of provider,
mode or provider response content. -/
theorem C10_reply_type_analysis (cfg : Config) (w : World) (req : Request) (r : HttpResponse)
    (h : (analyze cfg w req).result = .ok r) (h200 : r.status = 200) :
    jget r.body "reply_type" = some (.str "analysis") := by
  rcases analyze_ok_shape cfg w req r h with
    h1 | h1 | h1 | ⟨e, h1⟩ | ⟨pr, _, hpt, h1⟩ | ⟨e, _, h1⟩ | ⟨pr, _, _, hpt, h1⟩ |
    ⟨e, _, _, h1⟩ | ⟨_, _, h1⟩ <;> subst h1
  all_goals first
    | (revert h200; simp; done)
    | (rw [jget_okEnv_reply_type, hpt])

/-- C6: provider selection is checked in fixed order with first match
winning — with a truthy Gemini credential every 200 response reports
`meta.used_provider = "gemini"`; with Gemini unset and OpenAI truthy it
reports `"openai"`; with neither set no 200 is ever produced and every
500 carries the `no AI provider configured` message. -/
theorem C6_provider_selection (cfg : Config) (w : World) (req : Request) (r : HttpResponse)
    (h : (analyze cfg w req).result = .ok r) :
    (truthyOpt cfg.GEMINI_API_KEY = true → r.status = 200 →
       jget r.body "meta" = some (.obj [("used_provider", .str "gemini")])) ∧
    (truthyOpt cfg.GEMINI_API_KEY = false → truthyOpt cfg.OPENAI_API_KEY = true →
       r.status = 200 →
       jget r.body "meta" = some (.obj [("used_provider", .str "openai")])) ∧
    (truthyOpt cfg.GEMINI_API_KEY = false → truthyOpt cfg.OPENAI_API_KEY = false →
       r.status ≠ 200 ∧ (r.status = 500 → r.body = errEnv noProviderMsg)) := by
  have hs := analyze_ok_shape cfg w req r h
  refine ⟨?_, ?_, ?_⟩
  · intro hg h200
    rcases hs with
      h1 | h1 | h1 | ⟨e, h1⟩ | ⟨pr, hgg, hpt, h1⟩ | ⟨e, hgg, h1⟩ | ⟨pr, hgg, hoo, hpt, h1⟩ |
      ⟨e, hgg, hoo, h1⟩ | ⟨hgg, hoo, h1⟩ <;> subst h1
    all_goals first
      | (revert h200; simp; done)
      | (exact jget_okEnv_meta pr "gemini")
      | (exfalso; rw [hg] at hgg; exact Bool.noConfusion hgg)
  · intro hg ho h200
    rcases hs with
      h1 | h1 | h1 | ⟨e, h1⟩ | ⟨pr, hgg, hpt, h1⟩ | ⟨e, hgg, h1⟩ | ⟨pr, hgg, hoo, hpt, h1⟩ |
      ⟨e, hgg, hoo, h1⟩ | ⟨hgg, hoo, h1⟩ <;> subst h1
    all_goals first
      | (revert h200; simp; done)
      | (exact jget_okEnv_meta pr "openai")
      | (exfalso; rw [hg] at hgg; exact Bool.noConfusion hgg)
  · intro hg ho
    rcases hs with
      h1 | h1 | h1 | ⟨e, h1⟩ | ⟨pr, hgg, hpt, h1⟩ | ⟨e, hgg, h1⟩ | ⟨pr, hgg, hoo, hpt, h1⟩ |
      ⟨e, hgg, hoo, h1⟩ | ⟨hgg, hoo, h1⟩
    · subst h1; refine ⟨by simp, fun hh => ?_⟩; simp at hh
    · subst h1; refine ⟨by simp, fun hh => ?_⟩; simp at hh
    · subst h1; refine ⟨by simp, fun hh => ?_⟩; simp at hh
    · subst h1; refine ⟨by simp, fun hh => ?_⟩; simp at hh
    · rw [hg] at hgg; exact Bool.noConfusion hgg
    · rw [hg] at hgg; exact Bool.noConfusion hgg
    · rw [ho] at hoo; exact Bool.noConfusion hoo
    · rw [ho] at hoo; exact Bool.noConfusion hoo
    · subst h1; exact ⟨by simp, fun _ => rfl⟩

/-! ### Claim theorems: concrete evaluations and counterexamples -/

/-- C1: the claim says every temporary file created while handling the
request — including the one created inside the provider call — is deleted
before the handler returns.  Evaluating the handler at a request with a
valid image and a fully successful Gemini flow shows the file the Gemini
path creates (`tmp-image-2`, line 49 of `app.py`) still exists when the
handler returns — the `try/finally: pass` of lines 53-57 deletes
nothing — even though the response is a plain 200 success.  Only the
normalizer's file (`tmp-image-1`) is removed. -/
theorem C1_gemini_temp_file_leaks :
    (analyze cfgGemini stdWorld ⟨none, some (.obj [("image_base64", .str "QUJD")])⟩).fsFinal
        = ["tmp-image-2"] ∧
    (analyze cfgGemini stdWorld ⟨none, some (.obj [("image_base64", .str "QUJD")])⟩).result
        = .ok ⟨200, okEnv ⟨.str "the tutor reply", "analysis"⟩ "gemini"⟩ :=
  ⟨by decide, by decide⟩

/-- C2 counterexample: the claim says that when the configured secret is
empty the gate does not reject; but with `BACKEND_SECRET` set to the
empty string (which differs from the default `"devsecret"`) a request
without the header is rejected with 401. -/
theorem C2_counterexample_empty_secret_rejects :
    (analyze cfgEmptySecret stdWorld ⟨none, some (.obj [("message_text", .str "hi")])⟩).result
      = .ok ⟨401, errEnv "unauthorized"⟩ := by decide

/-- C3 counterexample: on an input containing the marker twice the
normalizer decodes the segment between the first and second occurrence
(here the empty string, giving zero bytes), not the substring after the
first marker, whose decode (CPython discards the non-alphabet comma and
the trailing padding after complete quads) is six non-trivial bytes. -/
theorem C3_counterexample_double_marker :
    save_base64_image_to_tempfile "base64,base64,QQ==" "tmp-image-1" = .ok ("tmp-image-1", []) ∧
    b64decode (specAfterFirstMarker "base64,base64,QQ==") = .ok [109, 171, 30, 235, 132, 16] := by
  decide

/-- C4 counterexample: a perfectly valid JSON body whose `mode` field is
the number 5 makes the handler raise an unhandled `AttributeError` at
`mode.upper()` (line 121 of `app.py`) instead of producing a JSON error
envelope. -/
theorem C4_counterexample_nonstring_mode :
    (analyze cfgGemini stdWorld ⟨none, some (.obj [("mode", .num 5), ("message_text", .str "hi")])⟩).result
      = .error (.attributeError "object has no attribute upper") := by decide

/-- C5 counterexample: the body `{}` is valid JSON, yet the handler
rejects it with 400 `invalid json payload` because an empty dict is
Python-falsy (line 114 of `app.py`). -/
theorem C5_counterexample_empty_object :
    (analyze cfgGemini stdWorld ⟨none, some (.obj [])⟩).result
      = .ok ⟨400, errEnv "invalid json payload"⟩ := by decide

/-- C8 counterexample: the claim says every non-2xx upstream status
yields a Provider-Error; but `raise_for_status` only raises for 4xx/5xx,
so an upstream 304 with a JSON body flows on to extraction and the
handler returns a 200 success envelope (with the whole-body serialization
as reply text). -/
theorem C8_counterexample_status_304 :
    (analyze cfgOpenAI world304 ⟨none, some (.obj [("message_text", .str "hi")])⟩).result
      = .ok ⟨200, okEnv ⟨.str "\x7b\"a\": 1\x7d", "analysis"⟩ "openai"⟩ := by decide

/-- C2 (amended): the gate rejects with 401 `unauthorized` exactly when
the configured secret differs from the default `"devsecret"` — including
when it is the empty string — and the header does not equal it exactly;
whenever the gate passes, no path of the handler ever produces a 401.
(The claim's exemption for an empty configured secret is refuted by
`C2_counterexample_empty_secret_rejects`: the code only compares against
the default, not against emptiness.) -/
theorem C2_gate_checks_nondefault_secret (cfg : Config) (w : World) (req : Request) :
    (cfg.BACKEND_SECRET ≠ "devsecret" ∧ req.secretHeader ≠ some cfg.BACKEND_SECRET →
       analyze cfg w req = ⟨.ok ⟨401, errEnv "unauthorized"⟩, [], none⟩) ∧
    (∀ r, (analyze cfg w req).result = .ok r → r.status = 401 →
       cfg.BACKEND_SECRET ≠ "devsecret" ∧ req.secretHeader ≠ some cfg.BACKEND_SECRET) := by
  constructor
  · intro hg; simp [analyze, hg]
  · intro r hr h401
    rcases analyze_cases cfg w req with ⟨h1, h2, heq⟩ | ⟨hng, hcases⟩
    · exact ⟨h1, h2⟩
    · exfalso
      rcases hcases with ⟨_, heq⟩ | ⟨v, _, _, heq⟩ | ⟨v, _, _, _, heq⟩ | ⟨fields, _, _, heq⟩
      · rw [heq] at hr; simp at hr; subst hr; simp at h401
      · rw [heq] at hr; simp at hr; subst hr; simp at h401
      · rw [heq] at hr; simp at hr
      · rw [heq] at hr
        rcases analyzeObj_ok_status cfg w fields r hr with h | h | h <;> omega

/-- C2 witness: with the secret configured empty and a wrong header the
first part of the gate theorem applies and yields the 401 envelope. -/
theorem C2_gate_witness :
    analyze cfgEmptySecret stdWorld ⟨some "wrong", some (.obj [("message_text", .str "hi")])⟩ =
      ⟨.ok ⟨401, errEnv "unauthorized"⟩, [], none⟩ :=
  (C2_gate_checks_nondefault_secret cfgEmptySecret stdWorld
    ⟨some "wrong", some (.obj [("message_text", .str "hi")])⟩).1 (by decide)

/-- C4 (amended): for every request whose body is missing/unparsable,
parses to a Python-falsy value, or parses to a JSON object whose `mode`
field is absent or a string, the handler raises no unhandled exception:
the result is always a response with status 200, 400, 401 or 500.  (For
a JSON object with a non-string `mode`, and for a truthy non-object body,
the handler does raise — `C4_counterexample_nonstring_mode`.) -/
theorem C4_handler_total_on_safe_bodies (cfg : Config) (w : World) (req : Request)
    (hsafe : bodySafe req.body) :
    ∃ r, (analyze cfg w req).result = .ok r ∧
      (r.status = 200 ∨ r.status = 400 ∨ r.status = 401 ∨ r.status = 500) := by
  rcases analyze_cases cfg w req with ⟨_, _, heq⟩ | ⟨hng, hcases⟩
  · exact ⟨_, by rw [heq], by simp⟩
  · rcases hcases with ⟨_, heq⟩ | ⟨v, _, _, heq⟩ | ⟨v, hb, htv, hnotobj, heq⟩ |
      ⟨fields, hb, htv2, heq⟩
    · exact ⟨_, by rw [heq], by simp⟩
    · exact ⟨_, by rw [heq], by simp⟩
    · exfalso
      rw [hb] at hsafe
      have hs2 : v.truthy = false ∨ ∃ fs, v = .obj fs ∧ modeOk fs := hsafe
      rcases hs2 with hf | ⟨fs, hv, _⟩
      · rw [htv] at hf; exact Bool.noConfusion hf
      · exact hnotobj fs hv
    · rw [hb] at hsafe
      have hs2 : (JsonV.obj fields).truthy = false ∨
          ∃ fs, JsonV.obj fields = .obj fs ∧ modeOk fs := hsafe
      rcases hs2 with hf | ⟨fs, hv, hm⟩
      · exact absurd hf (by simp [htv2])
      · injection hv with hv
        subst hv
        rcases analyzeObj_cases cfg w fields hm with ⟨e, heq2, _⟩ |
          ⟨u, tip, ib, fs0, heq2, _, _⟩
        · exact ⟨_, by rw [heq, heq2], by simp⟩
        · rw [heq, heq2]
          rcases dispatch_cases cfg w u tip ib fs0 with
            ⟨pr, _, _, hres, _⟩ | ⟨e, _, hres, _⟩ | ⟨pr, _, _, _, hres, _⟩ |
            ⟨e, _, _, hres, _⟩ | ⟨_, _, hres, _⟩ <;>
            exact ⟨_, hres, by simp⟩

/-- C4 witness: a body with a string `mode` and a non-string
`message_text` is safe and yields a response status from the allowed
set. -/
theorem C4_handler_total_witness :
    ∃ r, (analyze cfgGemini stdWorld
        ⟨none, some (.obj [("mode", .str "summary"), ("message_text", .num 7)])⟩).result
          = .ok r ∧
      (r.status = 200 ∨ r.status = 400 ∨ r.status = 401 ∨ r.status = 500) :=
  C4_handler_total_on_safe_bodies cfgGemini stdWorld
    ⟨none, some (.obj [("mode", .str "summary"), ("message_text", .num 7)])⟩
    (Or.inr ⟨_, rfl, Or.inr ⟨"summary", rfl⟩⟩)

/-- C9 counterexample: two requests identical except for the presence of
`user_id` get different responses: `{}` is falsy and is rejected with 400
`invalid json payload`, while `{"user_id": "u-1"}` is truthy and reaches
the dispatcher (500 `no provider` here) — so the presence of `user_id`
is observable. -/
theorem C9_counterexample_user_id_presence :
    analyze cfgNoProvider stdWorld ⟨none, some (.obj [])⟩ ≠
      analyze cfgNoProvider stdWorld ⟨none, some (.obj [("user_id", .str "u-1")])⟩ := by decide


/-- C6 witness: a Gemini-only configuration with a successful flow
instantiates the first selection clause. -/
theorem C6_provider_selection_witness :
    jget (okEnv ⟨.str "the tutor reply", "analysis"⟩ "gemini") "meta"
      = some (.obj [("used_provider", .str "gemini")]) :=
  (C6_provider_selection cfgGemini stdWorld ⟨none, some (.obj [("message_text", .str "hi")])⟩
    ⟨200, okEnv ⟨.str "the tutor reply", "analysis"⟩ "gemini"⟩ (by decide)).1 rfl rfl

/-- C10 witness: a concrete successful Gemini response instantiates the
reply-type invariant. -/
theorem C10_reply_type_analysis_witness :
    jget (okEnv ⟨.str "the tutor reply", "analysis"⟩ "gemini") "reply_type"
      = some (.str "analysis") :=
  C10_reply_type_analysis cfgGemini stdWorld ⟨none, some (.obj [("message_text", .str "hi")])⟩
    ⟨200, okEnv ⟨.str "the tutor reply", "analysis"⟩ "gemini"⟩ (by decide) rfl

/-- C5 (amended): under a passing gate and a crash-free body, the handler
responds 400 exactly when the body is missing/unparsable, parses to a
Python-falsy value (such as the valid-JSON `\x7b\x7d`), or is an object whose
`image_base64` is present, truthy and fails normalization.  (The claim's
"a body that is valid JSON is not rejected" is refuted by
`C5_counterexample_empty_object`.) -/
theorem C5_bad_request_iff (cfg : Config) (w : World) (req : Request)
    (hgate : ¬(cfg.BACKEND_SECRET ≠ "devsecret" ∧ req.secretHeader ≠ some cfg.BACKEND_SECRET))
    (hsafe : bodySafe req.body) :
    (∃ r, (analyze cfg w req).result = .ok r ∧ r.status = 400) ↔
      (req.body = none ∨
       (∃ v, req.body = some v ∧ v.truthy = false) ∨
       (∃ fields, req.body = some (.obj fields) ∧
          imageB64Bad (dictGet fields "image_base64") = true)) := by
  constructor
  · rintro ⟨r, hr, h400⟩
    rcases analyze_cases cfg w req with ⟨h1, h2, _⟩ | ⟨_, hcases⟩
    · exact absurd ⟨h1, h2⟩ hgate
    · rcases hcases with ⟨hb, heq⟩ | ⟨v, hb, htv, heq⟩ | ⟨v, hb, htv, hnotobj, heq⟩ |
        ⟨fields, hb, htv, heq⟩
      · exact Or.inl hb
      · exact Or.inr (Or.inl ⟨v, hb, htv⟩)
      · rw [heq] at hr; simp at hr
      · right; right
        refine ⟨fields, hb, ?_⟩
        rw [heq] at hr
        rw [hb] at hsafe
        have hs2 : (JsonV.obj fields).truthy = false ∨
            ∃ fs, JsonV.obj fields = .obj fs ∧ modeOk fs := hsafe
        rcases hs2 with hf | ⟨fs, hv, hm⟩
        · exact absurd hf (by simp [htv])
        · injection hv with hv; subst hv
          rcases analyzeObj_cases cfg w fields hm with ⟨e, heq2, hbad⟩ |
            ⟨u, tip, ib, fs0, heq2, _, hgood⟩
          · exact hbad
          · exfalso
            rw [heq2] at hr
            rcases dispatch_cases cfg w u tip ib fs0 with
              ⟨pr, _, _, hres, _⟩ | ⟨e, _, hres, _⟩ | ⟨pr, _, _, _, hres, _⟩ |
              ⟨e, _, _, hres, _⟩ | ⟨_, _, hres, _⟩ <;>
              (rw [hres] at hr; injection hr with hr; subst hr; simp at h400)
  · intro hrhs
    rcases analyze_cases cfg w req with ⟨h1, h2, _⟩ | ⟨_, hcases⟩
    · exact absurd ⟨h1, h2⟩ hgate
    · rcases hcases with ⟨hb, heq⟩ | ⟨v, hb, htv, heq⟩ | ⟨v, hb, htv, hnotobj, heq⟩ |
        ⟨fields, hb, htv, heq⟩
      · exact ⟨_, by rw [heq], rfl⟩
      · exact ⟨_, by rw [heq], rfl⟩
      · exfalso
        rw [hb] at hsafe
        have hs2 : v.truthy = false ∨ ∃ fs, v = .obj fs ∧ modeOk fs := hsafe
        rcases hs2 with hf | ⟨fs, hv, _⟩
        · rw [htv] at hf; exact Bool.noConfusion hf
        · exact hnotobj fs hv
      · rcases hrhs with hb0 | ⟨v, hb0, htv0⟩ | ⟨fields0, hb0, hbad⟩
        · rw [hb] at hb0; exact absurd hb0 (by simp)
        · rw [hb] at hb0; injection hb0 with hb0
          rw [← hb0] at htv0; rw [htv] at htv0; exact absurd htv0 (by simp)
        · rw [hb] at hb0; injection hb0 with hb0; injection hb0 with hb0
          subst hb0
          rw [hb] at hsafe
          have hs2 : (JsonV.obj fields).truthy = false ∨
              ∃ fs, JsonV.obj fields = .obj fs ∧ modeOk fs := hsafe
          rcases hs2 with hf | ⟨fs, hv, hm⟩
          · exact absurd hf (by simp [htv])
          · injection hv with hv; subst hv
            rcases analyzeObj_cases cfg w fields hm with ⟨e, heq2, _⟩ |
              ⟨u, tip, ib, fs0, heq2, _, hgood⟩
            · exact ⟨_, by rw [heq, heq2], rfl⟩
            · rw [hbad] at hgood; exact Bool.noConfusion hgood


/-- C5 witness: a body with a syntactically unpaddable base64 payload is
rejected with a 400. -/
theorem C5_bad_request_iff_witness :
    ∃ r, (analyze cfgGemini stdWorld ⟨none, some (.obj [("image_base64", .str "QQ")])⟩).result
        = .ok r ∧ r.status = 400 :=
  (C5_bad_request_iff cfgGemini stdWorld ⟨none, some (.obj [("image_base64", .str "QQ")])⟩
    (by decide) (Or.inr ⟨_, rfl, Or.inl rfl⟩)).mpr
    (Or.inr (Or.inr ⟨_, rfl, by decide⟩))


/-- C7: whenever the handler reaches a provider with some payload text,
that text is exactly what the spec prescribes — `message_text` (default
`""`) unchanged when `mode` is absent or the literal `"auto"`, and
`"[MODE: <uppercased mode>]\n\n" ++ message_text` when `mode` is any
other string. -/
theorem C7_mode_marker_text (cfg : Config) (w : World) (hdr : Option String)
    (fields : List (String × JsonV)) (p : String) (payload : JsonV)
    (hm : modeOk fields)
    (ht : dictGet fields "message_text" = none ∨
      ∃ t, dictGet fields "message_text" = some (.str t))
    (hc : (analyze cfg w ⟨hdr, some (.obj fields)⟩).calledWith = some (p, payload)) :
    payload = .str (specUserText fields) := by
  rcases analyze_cases cfg w ⟨hdr, some (.obj fields)⟩ with ⟨_, _, heq⟩ | ⟨_, hcases⟩
  · rw [heq] at hc; simp at hc
  · rcases hcases with ⟨hbn, heq⟩ | ⟨v, hb, htv, heq⟩ | ⟨v, hb, htv, hnotobj, heq⟩ |
      ⟨fields2, hb, htv, heq⟩
    · simp at hbn
    · rw [heq] at hc; simp at hc
    · injection hb with hb2; exact absurd hb2.symm (hnotobj fields)
    · injection hb with hb2; injection hb2 with hb2
      subst hb2
      rw [heq] at hc
      rcases analyzeObj_cases cfg w fields hm with ⟨e, heq2, _⟩ |
        ⟨u, tip, ib, fs0, heq2, hu, _⟩
      · rw [heq2] at hc; simp at hc
      · rw [heq2] at hc
        have hu2 := userTextOf_spec fields hm ht
        rw [hu] at hu2
        injection hu2 with hu2
        rcases dispatch_cases cfg w u tip ib fs0 with
          ⟨_, _, _, _, hcw⟩ | ⟨_, _, _, hcw⟩ | ⟨_, _, _, _, _, hcw⟩ |
          ⟨_, _, _, _, hcw⟩ | ⟨_, _, _, hcw⟩ <;> rw [hcw] at hc
        · simp at hc; exact hc.2 ▸ hu2
        · simp at hc; exact hc.2 ▸ hu2
        · simp at hc; exact hc.2 ▸ hu2
        · simp at hc; exact hc.2 ▸ hu2
        · simp at hc

theorem dictGet_cons_ne (k0 : String) (v : JsonV) (fields : List (String × JsonV))
    (k : String) (hk : (k == k0) = false) :
    dictGet ((k0, v) :: fields) k = dictGet fields k := by
  simp [dictGet, List.lookup, hk]

theorem analyzeObj_congr (cfg : Config) (w : World) (f1 f2 : List (String × JsonV))
    (hm : dictGet f1 "mode" = dictGet f2 "mode")
    (ht : dictGet f1 "message_text" = dictGet f2 "message_text")
    (hi : dictGet f1 "image_base64" = dictGet f2 "image_base64") :
    analyzeObj cfg w f1 = analyzeObj cfg w f2 := by
  simp only [analyzeObj]
  rw [hm, ht, hi]

theorem analyze_body_obj (cfg : Config) (w : World) (hdr : Option String)
    (fields : List (String × JsonV))
    (hgate : ¬(cfg.BACKEND_SECRET ≠ "devsecret" ∧ hdr ≠ some cfg.BACKEND_SECRET))
    (h : (JsonV.obj fields).truthy = true) :
    analyze cfg w ⟨hdr, some (.obj fields)⟩ = analyzeObj cfg w fields := by
  simp [analyze, hgate, h]

/-- C9 (amended): the value of `user_id` never influences the handler's
output (so nothing of it is echoed back), and its presence is also inert
provided the rest of the body is non-empty; presence alone is observable
only through the Python-falsy-body 400 check
(`C9_counterexample_user_id_presence`). -/
theorem C9_user_id_inert (cfg : Config) (w : World) (hdr : Option String)
    (fields : List (String × JsonV)) (v₁ v₂ : JsonV) :
    analyze cfg w ⟨hdr, some (.obj (("user_id", v₁) :: fields))⟩ =
      analyze cfg w ⟨hdr, some (.obj (("user_id", v₂) :: fields))⟩ ∧
    (fields ≠ [] →
      analyze cfg w ⟨hdr, some (.obj (("user_id", v₁) :: fields))⟩ =
        analyze cfg w ⟨hdr, some (.obj fields)⟩) := by
  by_cases hgate : cfg.BACKEND_SECRET ≠ "devsecret" ∧ hdr ≠ some cfg.BACKEND_SECRET
  · constructor
    · simp [analyze, hgate]
    · intro _; simp [analyze, hgate]
  · have htr : ∀ v : JsonV, (JsonV.obj (("user_id", v) :: fields)).truthy = true := by
      intro v; simp [JsonV.truthy]
    have hstep : ∀ v : JsonV,
        analyze cfg w ⟨hdr, some (.obj (("user_id", v) :: fields))⟩ =
          analyzeObj cfg w (("user_id", v) :: fields) :=
      fun v => analyze_body_obj cfg w hdr _ hgate (htr v)
    have hcong : ∀ v : JsonV,
        analyzeObj cfg w (("user_id", v) :: fields) = analyzeObj cfg w fields := by
      intro v
      exact analyzeObj_congr cfg w _ _
        (dictGet_cons_ne _ _ _ _ (by decide)) (dictGet_cons_ne _ _ _ _ (by decide))
        (dictGet_cons_ne _ _ _ _ (by decide))
    constructor
    · rw [hstep v₁, hstep v₂, hcong v₁, hcong v₂]
    · intro hne
      have htr2 : (JsonV.obj fields).truthy = true := by
        cases fields with
        | nil => exact absurd rfl hne
        | cons a l => simp [JsonV.truthy]
      rw [hstep v₁, hcong v₁, analyze_body_obj cfg w hdr fields hgate htr2]


/-- C7 witness: the spec's end-to-end scenario — body
`{"message_text": "Summarize the Niger Delta conflict", "mode": "summary"}`
with Gemini configured invokes the provider with the bracketed uppercase
prefix and yields a 200 envelope with a non-empty reply. -/
theorem C7_mode_marker_text_witness :
    JsonV.str "[MODE: SUMMARY]\n\nSummarize the Niger Delta conflict" =
      .str (specUserText [("message_text", .str "Summarize the Niger Delta conflict"),
        ("mode", .str "summary")]) ∧
    (analyze cfgGemini stdWorld ⟨none, some (.obj [("message_text",
        .str "Summarize the Niger Delta conflict"), ("mode", .str "summary")])⟩).result
      = .ok ⟨200, okEnv ⟨.str "the tutor reply", "analysis"⟩ "gemini"⟩ :=
  ⟨C7_mode_marker_text cfgGemini stdWorld none
      [("message_text", .str "Summarize the Niger Delta conflict"), ("mode", .str "summary")]
      "gemini" (.str "[MODE: SUMMARY]\n\nSummarize the Niger Delta conflict")
      (Or.inr ⟨"summary", by decide⟩)
      (Or.inr ⟨"Summarize the Niger Delta conflict", by decide⟩) (by decide),
   by decide⟩

/-- C9 witness: dropping a `user_id` field from a non-trivial body leaves
the whole handler output unchanged. -/
theorem C9_user_id_inert_witness :
    analyze cfgGemini stdWorld ⟨none, some (.obj [("user_id", .str "u-1"),
        ("message_text", .str "hi")])⟩ =
      analyze cfgGemini stdWorld ⟨none, some (.obj [("message_text", .str "hi")])⟩ :=
  (C9_user_id_inert cfgGemini stdWorld none [("message_text", .str "hi")]
    (.str "u-1") (.str "u-2")).2 (by decide)


/-- C3 (amended): for every `image_base64` containing the marker, the
normalizer's bytes equal base64-decoding the segment strictly between the
first occurrence of `"base64,"` and the following occurrence (or the end
of the string) — i.e. element 1 of the Python split — not the full
substring after the first marker (`C3_counterexample_double_marker`).
For inputs with a single marker occurrence the two descriptions agree. -/
theorem C3_decodes_between_markers (s tmp : String)
    (h : containsSep header_sep.data s.data = true) :
    save_base64_image_to_tempfile s tmp =
      (match b64decode (specBetweenMarkers s) with
       | .ok bin => .ok (tmp, bin)
       | .error e => .error e) := by
  obtain ⟨p, hf0⟩ : ∃ p, findSep header_sep.data s.data = some p := by
    unfold containsSep at h
    cases hx : findSep header_sep.data s.data with
    | none => rw [hx] at h; simp at h
    | some p => exact ⟨p, rfl⟩
  obtain ⟨b, a⟩ := p
  have hl : s.data ≠ [] := findSep_nonnil _ _ _ _ hf0
  obtain ⟨n, hn⟩ : ∃ n, s.data.length = n + 1 := by
    cases hc : s.data with
    | nil => exact absurd hc hl
    | cons x xs => exact ⟨xs.length, rfl⟩
  have hkey : stripMarker s = specBetweenMarkers s := by
    unfold stripMarker specBetweenMarkers pySplit
    rw [if_pos h, hn]
    simp only [pySplitFuel]
    rw [hf0]
    cases hf2 : findSep header_sep.data a with
    | none =>
      cases n with
      | zero => simp [pySplitFuel, hf2]
      | succ m => simp [pySplitFuel, hf2]
    | some p2 =>
      obtain ⟨b2, a2⟩ := p2
      have ha : a ≠ [] := findSep_nonnil _ _ _ _ hf2
      have hlt : a.length < s.data.length := findSep_after_lt _ (by decide) _ _ _ hf0
      obtain ⟨m, hm⟩ : ∃ m, n = m + 1 := by
        have h1 : 1 ≤ a.length := by
          cases hc : a with
          | nil => exact absurd hc ha
          | cons x xs => simp
        refine ⟨n - 1, ?_⟩
        omega
      rw [hm]
      simp [pySplitFuel, hf2]
  unfold save_base64_image_to_tempfile
  rw [hkey]
  cases hd : b64decode (specBetweenMarkers s) with
  | ok bin => rfl
  | error e => rfl

/-- C3 witness: on an ordinary data URL the amended description computes
the expected single byte. -/
theorem C3_decodes_between_markers_witness :
    containsSep header_sep.data ("data:image/png;base64,QQ==").data = true ∧
    save_base64_image_to_tempfile "data:image/png;base64,QQ==" "tmp-x" = .ok ("tmp-x", [65]) :=
  ⟨by decide, (C3_decodes_between_markers "data:image/png;base64,QQ==" "tmp-x" (by decide)).trans (by decide)⟩

/-- C8 (amended): on the OpenAI path, an upstream status in [400, 600)
(what `raise_for_status` raises for) yields the 500 Provider-Error
envelope carrying the HTTP error; any other status whose body parses
yields a 200 success whose reply text is `choices[0].message.content`
when that shape is present and otherwise the serialization of the whole
body — the extraction itself never fails.  A non-2xx status outside
[400, 600) does NOT yield a Provider-Error
(`C8_counterexample_status_304`). -/
theorem C8_openai_error_handling (cfg : Config) (w : World) (ut : JsonV) (tip : Option String)
    (ib : Option (List Nat)) (fs : List String) (resp : HttpResp)
    (hg : truthyOpt cfg.GEMINI_API_KEY = false)
    (hk : truthyOpt cfg.OPENAI_API_KEY = true)
    (hpost : w.openai.post ⟨"gpt-4o", cfg.SYSTEM_PROMPT, ut, 2, 800⟩ = .ok resp) :
    (400 ≤ resp.status_code ∧ resp.status_code < 600 →
       (dispatch cfg w ut tip ib fs).result = .ok ⟨500, errEnvE "AI provider error"
         ("HTTP error " ++ toString resp.status_code ++
          " for url https://api.openai.com/v1/chat/completions")⟩) ∧
    (¬(400 ≤ resp.status_code ∧ resp.status_code < 600) → ∀ j, resp.jsonBody = some j →
       (dispatch cfg w ut tip ib fs).result = .ok ⟨200, okEnv
         ⟨(extractContent j).getD (.str (pyJsonDumps j)), "analysis"⟩ "openai"⟩) := by
  constructor
  · intro hs
    have hcall : call_openai_chat cfg w.openai cfg.SYSTEM_PROMPT ut =
        .error ("HTTP error " ++ toString resp.status_code ++
          " for url https://api.openai.com/v1/chat/completions") := by
      simp [call_openai_chat, hk, hpost, hs]
    simp [dispatch, hg, hk, hcall]
  · intro hs j hj
    have hcall : call_openai_chat cfg w.openai cfg.SYSTEM_PROMPT ut =
        .ok ⟨(extractContent j).getD (.str (pyJsonDumps j)), "analysis"⟩ := by
      simp [call_openai_chat, hk, hpost, hs, hj]
      cases he : extractContent j <;> simp [he]
    simp [dispatch, hg, hk, hcall]


/-- C8 witness: a 503 upstream response produces the 500 Provider-Error
envelope carrying the HTTP error. -/
theorem C8_openai_error_handling_witness :
    (dispatch cfgOpenAI world503 (.str "hi") none none []).result
      = .ok ⟨500, errEnvE "AI provider error"
          ("HTTP error " ++ toString (503 : Nat) ++
           " for url https://api.openai.com/v1/chat/completions")⟩ :=
  (C8_openai_error_handling cfgOpenAI world503 (.str "hi") none none []
    ⟨503, some .null⟩ rfl rfl rfl).1 (by decide)

end PCSBackend
